import Mathlib

/-!
Verification of the resilient batch-execution engine of RAG4code
(`gitlab_integration/error_handler.py` and
`gitlab_integration/batch_processor.py`), as a shallow embedding in Lean 4.

Python floats are modelled as rationals (`ℚ`), wall-clock timestamps as
rational inputs supplied with each call, exceptions as explicit
`Except`-values, and the thread pool's nondeterministic completion order as
an arbitrary permutation of the submitted unit list.  Progress callbacks are
modelled as non-raising (the claims under study condition on that).
-/

namespace RAG4Code

/-! ### CircuitBreaker (`error_handler.py`, class `CircuitBreaker`) -/

inductive CircuitState where
  | CLOSED
  | OPEN
  | HALF_OPEN
  deriving DecidableEq, Repr

/-- State of one `CircuitBreaker` instance: configuration
(`failure_threshold`, `recovery_timeout`) together with the mutable fields
`failure_count`, `last_failure_time` and `state` from `__init__`. -/
structure CircuitBreaker where
  failure_threshold : Nat
  recovery_timeout : ℚ
  failure_count : Nat
  last_failure_time : Option ℚ
  state : CircuitState
  deriving DecidableEq, Repr

/-- `CircuitBreaker.__init__`: counter 0, no failure recorded, CLOSED. -/
def initCB (threshold : Nat) (timeout : ℚ) : CircuitBreaker :=
  { failure_threshold := threshold
    recovery_timeout := timeout
    failure_count := 0
    last_failure_time := none
    state := .CLOSED }

/-- `CircuitBreaker._should_attempt_reset`. -/
def shouldAttemptReset (cb : CircuitBreaker) (now : ℚ) : Bool :=
  match cb.last_failure_time with
  | none => true
  | some t => decide (cb.recovery_timeout ≤ now - t)

/-- `CircuitBreaker._on_success`: reset the counter; leave HALF_OPEN for
CLOSED. -/
def onSuccess (cb : CircuitBreaker) : CircuitBreaker :=
  { cb with
    failure_count := 0
    state := if cb.state = .HALF_OPEN then .CLOSED else cb.state }

/-- `CircuitBreaker._on_failure`: bump the counter, record the failure
time, and open the breaker once the threshold is reached. -/
def onFailure (cb : CircuitBreaker) (now : ℚ) : CircuitBreaker :=
  { cb with
    failure_count := cb.failure_count + 1
    last_failure_time := some now
    state :=
      if cb.failure_threshold ≤ cb.failure_count + 1 then .OPEN else cb.state }

/-- Outcome of one wrapped call. -/
inductive CallOutcome where
  | rejected   -- fail-fast: the wrapped operation was NOT invoked
  | succeeded  -- operation invoked and returned normally
  | failed     -- operation invoked, raised, and the error re-raised
  deriving DecidableEq, Repr

/-- One invocation of the wrapper produced by `CircuitBreaker.__call__`,
at wall-clock time `now`; `opSucceeds` is whether the wrapped operation
would return normally were it invoked. -/
def call (cb : CircuitBreaker) (now : ℚ) (opSucceeds : Bool) :
    CircuitBreaker × CallOutcome :=
  if cb.state = .OPEN ∧ shouldAttemptReset cb now = false then
    (cb, .rejected)
  else
    let cb1 := if cb.state = .OPEN then { cb with state := .HALF_OPEN } else cb
    if opSucceeds then
      (onSuccess cb1, .succeeded)
    else
      (onFailure cb1 now, .failed)

/-- Run a sequence of wrapped calls, each given as (timestamp, whether the
operation would succeed), threading the breaker state. -/
def runCB (cb : CircuitBreaker) (events : List (ℚ × Bool)) : CircuitBreaker :=
  events.foldl (fun c e => (call c e.1 e.2).1) cb

/-! ### RetryConfig (`error_handler.py`, `RetryConfig` and
`retry_with_backoff`) -/

/-- The numeric part of `RetryConfig` (the retryable exception classes and
status codes are modelled separately, by `retryableType`). -/
structure RetryConfig where
  max_attempts : Nat
  base_delay : ℚ
  max_delay : ℚ
  exponential_base : ℚ
  jitter : Bool

/-- Default field values of the `RetryConfig` dataclass. -/
def defaultRetryConfig : RetryConfig :=
  { max_attempts := 3
    base_delay := 1
    max_delay := 60
    exponential_base := 2
    jitter := true }

/-- `RetryConfig.calculate_delay`.  `jitterFactor` stands for the random
draw `0.5 + random.random() * 0.5`; it is multiplied in only when
`jitter` is set. -/
def calculate_delay (cfg : RetryConfig) (attempt : Nat) (jitterFactor : ℚ) : ℚ :=
  let delay := min (cfg.base_delay * cfg.exponential_base ^ (attempt - 1))
    cfg.max_delay
  if cfg.jitter then delay * jitterFactor else delay

/-- Python exception values as they matter to the retry wrapper: the three
classes listed in `retry_on_exceptions`, plus everything else
(`valueError` standing for malformed input, `other` for the rest).
An `httpError` carries the HTTP status code of its response. -/
inductive PyExc where
  | connectionError
  | timeout
  | httpError (status : Nat)
  | valueError
  | other (msg : String)
  deriving DecidableEq, Repr

/-- The `except config.retry_on_exceptions` isinstance test: membership in
`(ConnectionError, Timeout, HTTPError)`.  Note it inspects the exception
CLASS only, never a status code. -/
def retryableType : PyExc → Bool
  | .connectionError => true
  | .timeout => true
  | .httpError _ => true
  | _ => false

/-- Trace of one run of a function wrapped by `retry_with_backoff`:
final outcome, number of invocations of the wrapped function, and the
delays slept between attempts. -/
structure RetryTrace (V : Type) where
  result : Except PyExc V
  invocations : Nat
  sleeps : List ℚ
  deriving Repr

/-- The attempt loop of `retry_with_backoff`: `behavior n` is what the
wrapped function does on its `n`-th invocation (1-based), `jf n` the jitter
draw used for the sleep after attempt `n`.  `remaining` counts the attempts
still allowed (initially `max_attempts`). -/
def retryLoop (cfg : RetryConfig) (behavior : Nat → Except PyExc V)
    (jf : Nat → ℚ) : Nat → Nat → RetryTrace V
  | _, 0 => { result := .error (.other "NoneType"), invocations := 0, sleeps := [] }
  | attempt, remaining + 1 =>
    match behavior attempt with
    | .ok v => { result := .ok v, invocations := 1, sleeps := [] }
    | .error e =>
      if retryableType e then
        if remaining = 0 then
          -- attempt == max_attempts: break, then re-raise last_exception
          { result := .error e, invocations := 1, sleeps := [] }
        else
          let rest := retryLoop cfg behavior jf (attempt + 1) remaining
          { result := rest.result
            invocations := rest.invocations + 1
            sleeps := calculate_delay cfg attempt (jf attempt) :: rest.sleeps }
      else
        -- unexpected exception class: re-raised immediately, no retry
        { result := .error e, invocations := 1, sleeps := [] }

/-- `retry_with_backoff(config)(func)()` as a whole. -/
def retry_with_backoff (cfg : RetryConfig) (behavior : Nat → Except PyExc V)
    (jf : Nat → ℚ) : RetryTrace V :=
  retryLoop cfg behavior jf 1 cfg.max_attempts

/-! ### ErrorRecoveryManager (`error_handler.py`, `handle_error`)

Strategies and fallbacks are `Callable`s that either return a value or
raise; `E` is the type of the original error, `V` the type a strategy or
fallback may return.  The writes to `error_context.recovery_action` are
collected in order, so the FINAL recorded outcome of the appended event is
the last element of that list. -/

inductive RecoveryAction where
  | recovery_strategy_succeeded
  | recovery_strategy_failed
  | fallback_succeeded
  | fallback_failed
  | no_recovery_available
  deriving DecidableEq, Repr

/-- The registries of an `ErrorRecoveryManager`: recovery strategies keyed
by error type name, fallback handlers keyed by operation name.  A handler
maps the original error to either a returned value or a raised error. -/
structure RecoveryManager (E V : Type) where
  recovery_strategies : String → Option (E → Except String V)
  fallback_handlers : String → Option (E → Except String V)

/-- `ErrorRecoveryManager.handle_error(error, operation, component)`:
returns the recovered value or re-raises the ORIGINAL error, paired with
the sequence of values written to the event's `recovery_action` field.
`typeName` models `type(error).__name__`. -/
def handle_error (m : RecoveryManager E V) (typeName : E → String)
    (error : E) (operation : String) : Except E V × List RecoveryAction :=
  let afterStrategy : List RecoveryAction → Except E V × List RecoveryAction :=
    fun writes =>
      match m.fallback_handlers operation with
      | some fb =>
        match fb error with
        | .ok v => (.ok v, writes ++ [.fallback_succeeded])
        | .error _ =>
          (.error error,
            writes ++ [.fallback_failed, .no_recovery_available])
      | none => (.error error, writes ++ [.no_recovery_available])
  match m.recovery_strategies (typeName error) with
  | some strat =>
    match strat error with
    | .ok v => (.ok v, [.recovery_strategy_succeeded])
    | .error _ => afterStrategy [.recovery_strategy_failed]
  | none => afterStrategy []

/-- The final value left in the event's `recovery_action` field. -/
def finalRecoveryAction (writes : List RecoveryAction) : Option RecoveryAction :=
  writes.getLast?

/-! ### BatchProcessor (`batch_processor.py`)

Wall-clock fields (`processing_time`, timestamps) are omitted; the
collaborators (`gitlab_client`, `mr_analyzer`, `review_generator`) are
deterministic functions of the unit, each returning a value or raising. -/

/-- A merge request as the batch processor reads it: `mr['iid']` and
`mr.get('project_path', '')`. -/
structure MR where
  iid : Nat
  project_path : String
  deriving DecidableEq, Repr

/-- The fields of `analysis['impact_analysis']` that reach a result. -/
structure ImpactAnalysis where
  complexity_score : Nat
  files_count : Nat
  lines_added : Nat
  lines_removed : Nat
  deriving DecidableEq, Repr

/-- The fields of a generated review that reach a result or gate the
posting step (`review.get('summary')`, `review.get('overall_assessment')`). -/
structure Review where
  summary : String
  overall_assessment : String
  deriving DecidableEq, Repr

/-- `BatchResult` dataclass, minus the wall-clock fields. -/
structure BatchResult where
  mr_iid : Nat
  project_path : String
  success : Bool
  review_type : String
  complexity_score : Nat := 0
  risk_assessment : String := ""
  error : Option String := none
  review_posted : Bool := false
  file_count : Nat := 0
  lines_added : Nat := 0
  lines_removed : Nat := 0
  deriving DecidableEq, Repr

/-- `BatchSummary` dataclass, minus the wall-clock fields. -/
structure BatchSummary where
  total_mrs : Nat
  successful_reviews : Nat
  failed_reviews : Nat
  reviews_posted : Nat
  project_path : String
  review_type : String
  errors : List String
  deriving DecidableEq, Repr

/-- The deterministic collaborators a `BatchProcessor` calls for one unit:
`gitlab_client.get_mr_changes`, `mr_analyzer.analyze_mr_changes`,
`review_generator.generate_review`, `review_generator.format_for_gitlab`
combined with `gitlab_client.post_mr_note`.  Each either returns or
raises (`Except` error). -/
structure Collaborators where
  get_mr_changes : MR → Except String Unit
  analyze_mr_changes : MR → Except String ImpactAnalysis
  generate_review : MR → ImpactAnalysis → String → Except String Review
  post_note : MR → Review → Except String Unit

/-- `BatchProcessor._process_single_mr`: runs the pipeline under one broad
`except`, so it always RETURNS a `BatchResult` (success or failure); a
failure of the posting step alone is swallowed, leaving
`review_posted = false`. -/
def process_single_mr (C : Collaborators) (mr : MR) (review_type : String)
    (post_review : Bool) : BatchResult :=
  match C.get_mr_changes mr with
  | .error e =>
    { mr_iid := mr.iid
      project_path := mr.project_path
      success := false
      review_type := review_type
      error := some e }
  | .ok _ =>
    match C.analyze_mr_changes mr with
    | .error e =>
      { mr_iid := mr.iid
        project_path := mr.project_path
        success := false
        review_type := review_type
        error := some e }
    | .ok analysis =>
      match C.generate_review mr analysis review_type with
      | .error e =>
        { mr_iid := mr.iid
          project_path := mr.project_path
          success := false
          review_type := review_type
          error := some e }
      | .ok review =>
        let posted :=
          post_review ∧ review.summary ≠ "" ∧ (C.post_note mr review).isOk
        { mr_iid := mr.iid
          project_path := mr.project_path
          success := true
          review_type := review_type
          complexity_score := analysis.complexity_score
          risk_assessment := review.overall_assessment
          review_posted := decide posted
          file_count := analysis.files_count
          lines_added := analysis.lines_added
          lines_removed := analysis.lines_removed }

/-- `BatchProcessor._process_sequential`: one result appended per unit, in
input order (progress callback and inter-unit sleeps do not raise). -/
def process_sequential (C : Collaborators) (mrs : List MR)
    (review_type : String) (post_reviews : Bool) : List BatchResult :=
  mrs.map (fun mr => process_single_mr C mr review_type post_reviews)

/-- The `as_completed` loop body of `BatchProcessor._process_parallel`:
each completed future carries either the worker's `BatchResult` or the
exception the worker raised, in which case a failed result is synthesized
in the `except` branch. -/
def process_parallel_outcomes (review_type : String)
    (jobs : List (MR × Except String BatchResult)) : List BatchResult :=
  jobs.map (fun job =>
    match job.2 with
    | .ok r => r
    | .error e =>
      { mr_iid := job.1.iid
        project_path := job.1.project_path
        success := false
        review_type := review_type
        error := some e })

/-- `BatchProcessor._process_parallel`: every unit is submitted to the
pool; results are appended in completion order, modelled by the caller
passing the units in an arbitrary permutation `order` of the input list.
The embedded worker is total, so each future completes with its result. -/
def process_parallel (C : Collaborators) (order : List MR)
    (review_type : String) (post_reviews : Bool) : List BatchResult :=
  process_parallel_outcomes review_type
    (order.map (fun mr =>
      (mr, Except.ok (process_single_mr C mr review_type post_reviews))))

/-- `BatchProcessor._get_mrs_to_process`: enumeration plus filtering plus
truncation runs under one `except Exception` that returns `[]`.
`enumerate` is the outcome of `gitlab_client.get_project_merge_requests`
combined with `_apply_filters` (either of which may raise). -/
def get_mrs_to_process (enum_and_filter : Except String (List MR))
    (max_reviews : Nat) : List MR :=
  match enum_and_filter with
  | .ok mrs => mrs.take max_reviews
  | .error _ => []

/-- The summary computation at the end of `process_project_mrs`:
`total_mrs = len(self.results)`,
`failed_reviews = len(self.results) - successful_reviews`. -/
def mkSummary (results : List BatchResult) (errors : List String)
    (project_path review_type : String) : BatchSummary :=
  { total_mrs := results.length
    successful_reviews := (results.filter (fun r => r.success)).length
    failed_reviews :=
      results.length - (results.filter (fun r => r.success)).length
    reviews_posted := (results.filter (fun r => r.review_posted)).length
    project_path := project_path
    review_type := review_type
    errors := errors }

/-- `BatchProcessor._create_empty_summary`: all counts zero and, notably,
`errors=[]`. -/
def create_empty_summary (project_path review_type : String) : BatchSummary :=
  { total_mrs := 0
    successful_reviews := 0
    failed_reviews := 0
    reviews_posted := 0
    project_path := project_path
    review_type := review_type
    errors := [] }

/-- `BatchProcessor.process_project_mrs` with a non-raising progress
callback: enumerate (never raises: `_get_mrs_to_process` catches), return
the empty summary on zero units, otherwise dispatch sequentially or in
parallel (`parallel_workers > 1`) and build the summary from the collected
results.  With the embedded worker total, the dispatch phase raises
nothing, so `errors` stays empty. -/
def process_project_mrs (enum_and_filter : Except String (List MR))
    (max_reviews : Nat) (C : Collaborators) (project_path review_type : String)
    (post_reviews : Bool) (parallel_workers : Nat) (order : List MR) :
    BatchSummary :=
  let mrs := get_mrs_to_process enum_and_filter max_reviews
  if mrs.length = 0 then
    create_empty_summary project_path review_type
  else
    let results :=
      if 1 < parallel_workers then
        process_parallel C order review_type post_reviews
      else
        process_sequential C mrs review_type post_reviews
    mkSummary results [] project_path review_type

/-! ## Theorems -/

/-- Any run of the retry loop with at least one attempt remaining invokes
the wrapped function at least once. -/
lemma retryLoop_invocations_pos (cfg : RetryConfig)
    (behavior : Nat → Except PyExc V) (jf : Nat → ℚ) (attempt remaining : Nat)
    (h : 1 ≤ remaining) :
    1 ≤ (retryLoop cfg behavior jf attempt remaining).invocations := by
  match remaining, h with
  | r + 1, _ =>
    rw [retryLoop]
    cases behavior attempt with
    | ok v => exact le_refl 1
    | error e =>
      by_cases hr : retryableType e
      · by_cases hz : r = 0
        · simp [hr, hz]
        · simp [hr, hz]
      · simp [hr]

/-- C6: `calculate_delay` equals
`min (base_delay * exponential_base ^ (attempt - 1)) max_delay` when jitter
is off, is non-decreasing in the attempt number, and never exceeds
`max_delay`; with jitter on it is the un-jittered value scaled by the draw
`jitterFactor ∈ [1/2, 1]`, hence still at most `max_delay`. -/
theorem C6_calculate_delay (cfg : RetryConfig) (a b : Nat) (jf : ℚ)
    (hbase : 0 ≤ cfg.base_delay) (heb : 1 ≤ cfg.exponential_base)
    (hmax : 0 ≤ cfg.max_delay) (_hjf1 : 1 / 2 ≤ jf) (hjf2 : jf ≤ 1)
    (hab : a ≤ b) :
    (cfg.jitter = false →
      calculate_delay cfg a jf =
        min (cfg.base_delay * cfg.exponential_base ^ (a - 1)) cfg.max_delay) ∧
    (cfg.jitter = true →
      calculate_delay cfg a jf =
        min (cfg.base_delay * cfg.exponential_base ^ (a - 1)) cfg.max_delay
          * jf) ∧
    (cfg.jitter = false →
      calculate_delay cfg a jf ≤ calculate_delay cfg b jf) ∧
    calculate_delay cfg a jf ≤ cfg.max_delay := by
  have hpow : (0:ℚ) ≤ cfg.exponential_base ^ (a - 1) :=
    pow_nonneg (le_trans zero_le_one heb) _
  have hD0 : (0:ℚ) ≤
      min (cfg.base_delay * cfg.exponential_base ^ (a - 1)) cfg.max_delay :=
    le_min (mul_nonneg hbase hpow) hmax
  have hDmax :
      min (cfg.base_delay * cfg.exponential_base ^ (a - 1)) cfg.max_delay ≤
        cfg.max_delay := min_le_right _ _
  refine ⟨fun h => by simp [calculate_delay, h], fun h => by
      simp [calculate_delay, h], fun h => ?_, ?_⟩
  · have hmono : cfg.base_delay * cfg.exponential_base ^ (a - 1) ≤
        cfg.base_delay * cfg.exponential_base ^ (b - 1) :=
      mul_le_mul_of_nonneg_left
        (pow_le_pow_right₀ heb (Nat.sub_le_sub_right hab 1)) hbase
    simpa [calculate_delay, h] using min_le_min hmono (le_refl cfg.max_delay)
  · by_cases h : cfg.jitter
    · calc calculate_delay cfg a jf
          = min (cfg.base_delay * cfg.exponential_base ^ (a - 1))
              cfg.max_delay * jf := by simp [calculate_delay, h]
        _ ≤ min (cfg.base_delay * cfg.exponential_base ^ (a - 1))
              cfg.max_delay := mul_le_of_le_one_right hD0 hjf2
        _ ≤ cfg.max_delay := hDmax
    · simp only [calculate_delay, h, if_false, Bool.false_eq_true]
      exact hDmax

/-- Witness for `C6_calculate_delay` at the dataclass defaults
(attempts 1 ≤ 2, jitter draw 3/4). -/
theorem C6_calculate_delay_witness :
    calculate_delay defaultRetryConfig 1 (3 / 4) ≤
      defaultRetryConfig.max_delay :=
  (C6_calculate_delay defaultRetryConfig 1 2 (3 / 4)
    (by norm_num [defaultRetryConfig]) (by norm_num [defaultRetryConfig])
    (by norm_num [defaultRetryConfig]) (by norm_num) (by norm_num)
    (by norm_num)).2.2.2

/-- C5 counterexample: an `HTTPError` with status 404 — a permanent 4xx
request error other than 429 — is caught by the
`except config.retry_on_exceptions` clause (which tests the exception
class only) and therefore IS retried: under the default config the wrapped
function is invoked 3 times and two backoff sleeps occur, contradicting
"propagate immediately on the first attempt, with no backoff sleep and no
second invocation". -/
theorem C5_counterexample :
    (retry_with_backoff defaultRetryConfig
        (fun _ => (Except.error (PyExc.httpError 404) : Except PyExc Unit))
        (fun _ => 1)).invocations = 3 ∧
    (retry_with_backoff defaultRetryConfig
        (fun _ => (Except.error (PyExc.httpError 404) : Except PyExc Unit))
        (fun _ => 1)).sleeps ≠ [] := by
  constructor
  · rfl
  · simp [retry_with_backoff, retryLoop, retryableType, defaultRetryConfig]

/-- C5 amended: the retry wrapper classifies by exception CLASS only.
Any exception outside `(ConnectionError, Timeout, HTTPError)` — e.g.
malformed input — propagates on the first attempt with no sleep and no
second invocation, while any exception of a retryable class (including an
`HTTPError` of any status) is retried whenever attempts remain. -/
theorem C5_retry_by_exception_class (cfg : RetryConfig)
    (behavior : Nat → Except PyExc V) (jf : Nat → ℚ) (e : PyExc)
    (hmax : 1 ≤ cfg.max_attempts) (h1 : behavior 1 = .error e) :
    (retryableType e = false →
      retry_with_backoff cfg behavior jf =
        { result := .error e, invocations := 1, sleeps := [] }) ∧
    (retryableType e = true → 2 ≤ cfg.max_attempts →
      2 ≤ (retry_with_backoff cfg behavior jf).invocations) := by
  constructor
  · intro hnr
    match hm : cfg.max_attempts, hmax with
    | r + 1, _ =>
      rw [retry_with_backoff, hm, retryLoop, h1]
      simp [hnr]
  · intro hr h2
    match hm : cfg.max_attempts, h2 with
    | r + 2, _ =>
      rw [retry_with_backoff, hm, retryLoop, h1]
      have h3 : 1 ≤ (retryLoop cfg behavior jf (1 + 1) (r + 1)).invocations :=
        retryLoop_invocations_pos cfg behavior jf (1 + 1) (r + 1)
          (Nat.succ_le_succ (Nat.zero_le r))
      simp [hr]
      simp only [Nat.reduceAdd] at h3 ⊢
      omega

/-- Witness for `C5_retry_by_exception_class`: under the default config, a
`ValueError` (malformed input) propagates with one invocation and no
sleeps, and a `ConnectionError` is invoked at least twice. -/
theorem C5_retry_by_exception_class_witness :
    (retry_with_backoff defaultRetryConfig
        (fun _ => (Except.error PyExc.valueError : Except PyExc Unit))
        (fun _ => 1) =
      { result := .error PyExc.valueError, invocations := 1, sleeps := [] }) ∧
    2 ≤ (retry_with_backoff defaultRetryConfig
        (fun _ => (Except.error PyExc.connectionError : Except PyExc Unit))
        (fun _ => 1)).invocations :=
  ⟨(C5_retry_by_exception_class defaultRetryConfig
      (fun _ => (Except.error PyExc.valueError : Except PyExc Unit))
      (fun _ => 1) PyExc.valueError
      (by norm_num [defaultRetryConfig]) rfl).1 rfl,
   (C5_retry_by_exception_class defaultRetryConfig
      (fun _ => (Except.error PyExc.connectionError : Except PyExc Unit))
      (fun _ => 1) PyExc.connectionError
      (by norm_num [defaultRetryConfig]) rfl).2 rfl
      (by norm_num [defaultRetryConfig])⟩

/-- C10: `handle_error` treats a recovery strategy as successful exactly
when it does not raise; the returned value is handed back unchanged —
its truth-value is never inspected — and neither the fallback registry nor
re-raising is consulted, for EVERY returned value `v` (in particular
`None`). -/
theorem C10_strategy_value_uninspected {E V : Type} (m : RecoveryManager E V)
    (typeName : E → String) (error : E) (operation : String)
    (strat : E → Except String V) (v : V)
    (hs : m.recovery_strategies (typeName error) = some strat)
    (hv : strat error = .ok v) :
    handle_error m typeName error operation =
      (.ok v, [.recovery_strategy_succeeded]) := by
  simp [handle_error, hs, hv]

/-- A manager whose registered strategy returns `None` (modelled as
`Option.none`) and which also has a fallback registered for
`review_generation`, as `setup_default_recovery_strategies` does for
`ConnectionError`. -/
def noneStrategyManager : RecoveryManager String (Option Nat) :=
  { recovery_strategies := fun t =>
      if t = "ConnectionError" then some (fun _ => .ok none) else none
    fallback_handlers := fun op =>
      if op = "review_generation" then some (fun _ => .ok (some 5)) else none }

/-- Witness for `C10_strategy_value_uninspected`: the default-style
`ConnectionError` strategy returns `None`, and `handle_error` hands `None`
back as the recovered result instead of trying the registered fallback. -/
theorem C10_strategy_value_uninspected_witness :
    handle_error noneStrategyManager (fun _ => "ConnectionError")
        "connection refused" "review_generation" =
      (.ok none, [.recovery_strategy_succeeded]) :=
  C10_strategy_value_uninspected noneStrategyManager
    (fun _ => "ConnectionError") "connection refused" "review_generation"
    (fun _ => .ok none) none rfl rfl

/-- C4: (a) when a strategy registered for the error's type name runs
without raising, its value is returned and no exception propagates;
(b) when both the registered strategy and the registered fallback raise,
the ORIGINAL error is re-raised and the final value recorded in the
event's `recovery_action` field is `no_recovery_available`. -/
theorem C4_handle_error_outcomes {E V : Type} (m : RecoveryManager E V)
    (typeName : E → String) (error : E) (operation : String) :
    (∀ (strat : E → Except String V) (v : V),
        m.recovery_strategies (typeName error) = some strat →
        strat error = .ok v →
        (handle_error m typeName error operation).1 = .ok v) ∧
    (∀ (strat fb : E → Except String V) (e1 e2 : String),
        m.recovery_strategies (typeName error) = some strat →
        strat error = .error e1 →
        m.fallback_handlers operation = some fb →
        fb error = .error e2 →
        (handle_error m typeName error operation).1 = .error error ∧
        finalRecoveryAction (handle_error m typeName error operation).2 =
          some .no_recovery_available) := by
  constructor
  · intro strat v hs hv
    simp [handle_error, hs, hv]
  · intro strat fb e1 e2 hs hv hf hfe
    simp [handle_error, finalRecoveryAction, hs, hv, hf, hfe]

/-- A manager whose strategy and fallback both raise, for the
`C4_handle_error_outcomes` witness. -/
def bothFailManager : RecoveryManager String String :=
  { recovery_strategies := fun t =>
      if t = "HTTPError" then some (fun _ => .error "strategy boom") else none
    fallback_handlers := fun op =>
      if op = "review_generation" then some (fun _ => .error "fallback boom")
      else none }

/-- Witness for `C4_handle_error_outcomes`: a succeeding strategy's value
comes back, and with both strategy and fallback raising the original error
re-raises with final outcome `no_recovery_available`. -/
theorem C4_handle_error_outcomes_witness :
    ((handle_error noneStrategyManager (fun _ => "ConnectionError")
        "connection refused" "review_generation").1 = .ok none) ∧
    ((handle_error bothFailManager (fun _ => "HTTPError") "rate limited"
        "review_generation").1 = .error "rate limited") ∧
    (finalRecoveryAction (handle_error bothFailManager (fun _ => "HTTPError")
        "rate limited" "review_generation").2 =
      some .no_recovery_available) := by
  refine ⟨?_, ?_, ?_⟩
  · exact (C4_handle_error_outcomes noneStrategyManager
      (fun _ => "ConnectionError") "connection refused"
      "review_generation").1 (fun _ => .ok none) none rfl rfl
  · exact ((C4_handle_error_outcomes bothFailManager (fun _ => "HTTPError")
      "rate limited" "review_generation").2 (fun _ => .error "strategy boom")
      (fun _ => .error "fallback boom") "strategy boom" "fallback boom"
      rfl rfl rfl rfl).1
  · exact ((C4_handle_error_outcomes bothFailManager (fun _ => "HTTPError")
      "rate limited" "review_generation").2 (fun _ => .error "strategy boom")
      (fun _ => .error "fallback boom") "strategy boom" "fallback boom"
      rfl rfl rfl rfl).2

/-- A manager with no strategies and a registered fallback that raises,
exercising the `fallback_failed` write followed by its overwrite. -/
def fallbackFailsManager : RecoveryManager String String :=
  { recovery_strategies := fun _ => none
    fallback_handlers := fun op =>
      if op = "review_generation" then some (fun _ => .error "fallback boom")
      else none }

/-- C8 counterexample: a fallback IS registered for the operation and
raises, yet the FINAL value recorded in the event's `recovery_action`
field is `no_recovery_available`, not `fallback_failed`: the code reaches
the unconditional "no recovery possible" write whenever neither strategy
nor fallback succeeded, overwriting the transient `fallback_failed`. -/
theorem C8_counterexample :
    finalRecoveryAction (handle_error fallbackFailsManager (fun _ => "KeyError")
        "boom" "review_generation").2 = some .no_recovery_available ∧
    (some RecoveryAction.no_recovery_available ≠
      some RecoveryAction.fallback_failed) := by
  exact ⟨rfl, by decide⟩

/-- C8 amended: when a registered fallback raises (and no strategy
succeeded), `fallback_failed` is written to the event but then overwritten:
the final recorded outcome is `no_recovery_available`, which is recorded
whenever neither a strategy nor a fallback succeeded — even though a
fallback was registered and ran. -/
theorem C8_fallback_failed_overwritten {E V : Type} (m : RecoveryManager E V)
    (typeName : E → String) (error : E) (operation : String)
    (fb : E → Except String V) (e2 : String)
    (hstrat : m.recovery_strategies (typeName error) = none ∨
      ∃ strat e1, m.recovery_strategies (typeName error) = some strat ∧
        strat error = .error e1)
    (hf : m.fallback_handlers operation = some fb)
    (hfe : fb error = .error e2) :
    (handle_error m typeName error operation).1 = .error error ∧
    RecoveryAction.fallback_failed ∈
      (handle_error m typeName error operation).2 ∧
    finalRecoveryAction (handle_error m typeName error operation).2 =
      some .no_recovery_available := by
  rcases hstrat with hnone | ⟨strat, e1, hs, he⟩
  · refine ⟨?_, ?_, ?_⟩ <;>
      simp [handle_error, finalRecoveryAction, hnone, hf, hfe]
  · refine ⟨?_, ?_, ?_⟩ <;>
      simp [handle_error, finalRecoveryAction, hs, he, hf, hfe]

/-- Witness for `C8_fallback_failed_overwritten` on
`fallbackFailsManager`. -/
theorem C8_fallback_failed_overwritten_witness :
    (handle_error fallbackFailsManager (fun _ => "KeyError") "boom"
        "review_generation").1 = .error "boom" ∧
    RecoveryAction.fallback_failed ∈
      (handle_error fallbackFailsManager (fun _ => "KeyError") "boom"
        "review_generation").2 ∧
    finalRecoveryAction (handle_error fallbackFailsManager
        (fun _ => "KeyError") "boom" "review_generation").2 =
      some .no_recovery_available :=
  C8_fallback_failed_overwritten fallbackFailsManager (fun _ => "KeyError")
    "boom" "review_generation" (fun _ => .error "fallback boom")
    "fallback boom" (Or.inl rfl) rfl rfl

/-- A failing wrapped call from the CLOSED state invokes the operation and
runs `_on_failure`. -/
lemma call_closed_fail (cb : CircuitBreaker) (h : cb.state = .CLOSED)
    (now : ℚ) : call cb now false = (onFailure cb now, .failed) := by
  simp [call, h]

/-- `failure_threshold` consecutive failing calls from a CLOSED breaker
whose counter is `failure_threshold - times.length` drive it to OPEN with
the counter at the threshold and the last failure time one of the supplied
call times. -/
lemma consecutive_failures :
    ∀ (times : List ℚ) (cb : CircuitBreaker),
      cb.state = .CLOSED →
      cb.failure_count + times.length = cb.failure_threshold →
      times ≠ [] →
      ∃ lf, lf ∈ times ∧
        runCB cb (times.map fun x => (x, false)) =
          { cb with
            state := .OPEN
            failure_count := cb.failure_threshold
            last_failure_time := some lf } := by
  intro times
  induction times with
  | nil => intro cb _ _ hne; exact absurd rfl hne
  | cons x xs ih =>
    intro cb hst hcnt _
    rcases eq_or_ne xs [] with hxs | hxs
    · subst hxs
      refine ⟨x, List.mem_singleton.2 rfl, ?_⟩
      have h1 : cb.failure_count + 1 = cb.failure_threshold := by
        simpa using hcnt
      show (call cb x false).1 = _
      rw [call_closed_fail cb hst x]
      simp [onFailure, h1]
    · have hlen1 : 1 ≤ xs.length := List.length_pos.2 hxs
      have hlt : cb.failure_count + 1 < cb.failure_threshold := by
        simp [List.length_cons] at hcnt
        omega
      have hstep : runCB cb ((x :: xs).map fun t => (t, false)) =
          runCB (onFailure cb x) (xs.map fun t => (t, false)) := by
        show runCB (call cb x false).1 _ = _
        rw [call_closed_fail cb hst x]
      have hst' : (onFailure cb x).state = .CLOSED := by
        simp [onFailure, Nat.not_le_of_lt hlt, hst]
      have hcnt' : (onFailure cb x).failure_count + xs.length =
          (onFailure cb x).failure_threshold := by
        simp [onFailure]
        simp [List.length_cons] at hcnt
        omega
      obtain ⟨lf, hmem, hrun⟩ := ih (onFailure cb x) hst' hcnt' hxs
      refine ⟨lf, List.mem_cons_of_mem x hmem, ?_⟩
      rw [hstep, hrun]
      simp [onFailure]

/-- C2: the wrapper state machine of `CircuitBreaker.__call__`.  After
`t ≥ 1` consecutive failing calls from a fresh breaker the stored state is
OPEN with the counter at `t`; while `now - last_failure < recovery_timeout`
every call is rejected without invoking the operation; once
`recovery_timeout ≤ now - last_failure` the next call is a HALF_OPEN trial
that does invoke the operation, and its success yields CLOSED with counter
0 while its failure yields OPEN again. -/
theorem C2_circuit_breaker_lifecycle (t : Nat) (timeout : ℚ)
    (times : List ℚ) (ht : 1 ≤ t) (hlen : times.length = t) :
    ∃ lf cbO, lf ∈ times ∧
      cbO = runCB (initCB t timeout) (times.map fun x => (x, false)) ∧
      cbO.state = .OPEN ∧
      cbO.failure_count = t ∧
      cbO.last_failure_time = some lf ∧
      (∀ now b, now - lf < timeout → call cbO now b = (cbO, .rejected)) ∧
      (∀ now, timeout ≤ now - lf →
        (∀ b, (call cbO now b).2 ≠ .rejected) ∧
        (call cbO now true).1.state = .CLOSED ∧
        (call cbO now true).1.failure_count = 0 ∧
        (call cbO now false).1.state = .OPEN) := by
  have hne : times ≠ [] := by
    intro h; rw [h] at hlen; simp at hlen; omega
  obtain ⟨lf, hmem, hrun⟩ := consecutive_failures times (initCB t timeout)
    (rfl) (by simpa [initCB] using hlen) hne
  refine ⟨lf, _, hmem, hrun.symm, rfl, rfl, rfl, ?_, ?_⟩
  · intro now b hlt
    have hre : shouldAttemptReset
        { initCB t timeout with
          state := .OPEN, failure_count := (initCB t timeout).failure_threshold,
          last_failure_time := some lf } now = false := by
      simp [shouldAttemptReset, initCB, not_le]
      exact hlt
    simp [call, hre]
  · intro now hge
    have hre : shouldAttemptReset
        (⟨t, timeout, t, some lf, .OPEN⟩ : CircuitBreaker) now = true := by
      simp [shouldAttemptReset]
      exact hge
    refine ⟨fun b => ?_, ?_, ?_, ?_⟩
    · cases b <;> simp [call, hre, onSuccess, onFailure, initCB]
    · simp [call, hre, onSuccess, initCB]
    · simp [call, hre, onSuccess, initCB]
    · simp [call, hre, onFailure, initCB]

/-- Witness for `C2_circuit_breaker_lifecycle`: threshold 1, timeout 60,
one failing call at time 0. -/
theorem C2_circuit_breaker_lifecycle_witness :
    ∃ lf cbO, lf ∈ [(0:ℚ)] ∧
      cbO = runCB (initCB 1 60) ([(0:ℚ)].map fun x => (x, false)) ∧
      cbO.state = .OPEN ∧
      cbO.failure_count = 1 ∧
      cbO.last_failure_time = some lf ∧
      (∀ now b, now - lf < 60 → call cbO now b = (cbO, .rejected)) ∧
      (∀ now, 60 ≤ now - lf →
        (∀ b, (call cbO now b).2 ≠ .rejected) ∧
        (call cbO now true).1.state = .CLOSED ∧
        (call cbO now true).1.failure_count = 0 ∧
        (call cbO now false).1.state = .OPEN) :=
  C2_circuit_breaker_lifecycle 1 60 [0] (le_refl 1) rfl

/-- C7 counterexample: with threshold 1 and `recovery_timeout = 60`, after
one failing call at time 0 the breaker's STORED state is OPEN and remains
so at time 60, even though `now - last_failure < recovery_timeout` is then
false — the state variable flips only lazily, on the next call. -/
theorem C7_counterexample :
    (runCB (initCB 1 60) [((0:ℚ), false)]).state = .OPEN ∧
    (runCB (initCB 1 60) [((0:ℚ), false)]).last_failure_time = some 0 ∧
    ¬(((60:ℚ) - 0) < 60) := by
  refine ⟨rfl, rfl, by norm_num⟩

/-- C7 amended: the stored state may remain OPEN after `recovery_timeout`
has elapsed, but a call is rejected without invoking the operation ONLY
while `now - last_failure < recovery_timeout`; once the timeout has
elapsed, the next call does not fail fast — it proceeds (as the HALF_OPEN
trial). -/
theorem C7_open_rejects_only_before_timeout (cb : CircuitBreaker)
    (now lf : ℚ) (b : Bool) (hst : cb.state = .OPEN)
    (hlf : cb.last_failure_time = some lf) :
    (now - lf < cb.recovery_timeout → call cb now b = (cb, .rejected)) ∧
    (cb.recovery_timeout ≤ now - lf → (call cb now b).2 ≠ .rejected) := by
  constructor
  · intro hlt
    have hre : shouldAttemptReset cb now = false := by
      simp [shouldAttemptReset, hlf]
      exact hlt
    simp [call, hst, hre]
  · intro hge
    have hre : shouldAttemptReset cb now = true := by
      simp [shouldAttemptReset, hlf]
      exact hge
    cases b <;> simp [call, hst, hre]

/-- Witness for `C7_open_rejects_only_before_timeout` on the concrete
breaker state ⟨threshold 1, timeout 60, counter 1, last failure 0, OPEN⟩
at times 30 (rejected) and 60 (not rejected). -/
theorem C7_open_rejects_only_before_timeout_witness :
    (call ⟨1, 60, 1, some 0, .OPEN⟩ 30 false =
      (⟨1, 60, 1, some 0, .OPEN⟩, .rejected)) ∧
    ((call ⟨1, 60, 1, some 0, .OPEN⟩ 60 false).2 ≠ .rejected) :=
  ⟨(C7_open_rejects_only_before_timeout ⟨1, 60, 1, some 0, .OPEN⟩ 30 0 false
      rfl rfl).1 (by norm_num),
   (C7_open_rejects_only_before_timeout ⟨1, 60, 1, some 0, .OPEN⟩ 60 0 false
      rfl rfl).2 (by norm_num)⟩

/-- Counting identity of the summary computation: successes plus failures
always equals the number of collected results. -/
lemma mkSummary_counts (results : List BatchResult) (errs : List String)
    (pp rt : String) :
    (mkSummary results errs pp rt).successful_reviews +
        (mkSummary results errs pp rt).failed_reviews =
      (mkSummary results errs pp rt).total_mrs ∧
    (mkSummary results errs pp rt).total_mrs = results.length := by
  refine ⟨?_, rfl⟩
  simp only [mkSummary]
  exact Nat.add_sub_cancel' (List.length_filter_le _ _)

/-- With the embedded worker total, the parallel dispatch collects exactly
the worker's result for each unit of the completion order. -/
lemma process_parallel_eq_map (C : Collaborators) (order : List MR)
    (rt : String) (post : Bool) :
    process_parallel C order rt post =
      order.map (fun mr => process_single_mr C mr rt post) := by
  simp [process_parallel, process_parallel_outcomes, List.map_map]

/-- Collaborators that always succeed, for concrete batch runs. -/
def trivialCollaborators : Collaborators :=
  { get_mr_changes := fun _ => .ok ()
    analyze_mr_changes := fun _ => .ok ⟨1, 1, 1, 0⟩
    generate_review := fun _ _ _ => .ok ⟨"looks fine", "LOW"⟩
    post_note := fun _ _ => .ok () }

/-- Collaborators whose analysis step raises for unit 2 and succeeds
elsewhere, giving a batch with one failed and some successful units. -/
def mixedCollaborators : Collaborators :=
  { get_mr_changes := fun _ => .ok ()
    analyze_mr_changes := fun mr =>
      if mr.iid = 2 then .error "Timeout" else .ok ⟨3, 1, 10, 2⟩
    generate_review := fun _ _ _ => .ok ⟨"looks fine", "LOW"⟩
    post_note := fun _ _ => .ok () }

/-- C1: over any enumerated unit list (with a non-raising progress
callback, as embedded), both dispatch modes collect exactly one result per
unit — the parallel loop synthesizing a failed result whenever a job
raised — so the summary satisfies
`successful_reviews + failed_reviews = total_mrs = N` where `N` is the
number of enumerated units. -/
theorem C1_one_result_per_unit (enum_and_filter : Except String (List MR))
    (max_reviews : Nat) (C : Collaborators) (pp rt : String) (post : Bool)
    (workers : Nat) (order : List MR)
    (hperm : order.Perm (get_mrs_to_process enum_and_filter max_reviews)) :
    (∀ jobs : List (MR × Except String BatchResult),
      (process_parallel_outcomes rt jobs).length = jobs.length) ∧
    (process_project_mrs enum_and_filter max_reviews C pp rt post workers
          order).successful_reviews +
        (process_project_mrs enum_and_filter max_reviews C pp rt post workers
          order).failed_reviews =
      (process_project_mrs enum_and_filter max_reviews C pp rt post workers
          order).total_mrs ∧
    (process_project_mrs enum_and_filter max_reviews C pp rt post workers
          order).total_mrs =
      (get_mrs_to_process enum_and_filter max_reviews).length := by
  refine ⟨fun jobs => List.length_map _ _, ?_⟩
  by_cases hz : (get_mrs_to_process enum_and_filter max_reviews).length = 0
  · simp [process_project_mrs, hz, create_empty_summary]
  · have hres :
        (if 1 < workers then
            process_parallel C order rt post
          else
            process_sequential C
              (get_mrs_to_process enum_and_filter max_reviews) rt
              post).length =
          (get_mrs_to_process enum_and_filter max_reviews).length := by
      by_cases hw : 1 < workers
      · rw [if_pos hw, process_parallel_eq_map, List.length_map]
        exact hperm.length_eq
      · rw [if_neg hw, process_sequential, List.length_map]
    constructor
    · simp only [process_project_mrs, if_neg hz]
      exact (mkSummary_counts _ _ _ _).1
    · simp only [process_project_mrs, if_neg hz]
      rw [(mkSummary_counts _ _ _ _).2]
      exact hres

/-- Witness for `C1_one_result_per_unit`: two units, completion order
reversed, parallel worker pool of 3; unit 2's analysis raises. -/
theorem C1_one_result_per_unit_witness :
    (∀ jobs : List (MR × Except String BatchResult),
      (process_parallel_outcomes "general" jobs).length = jobs.length) ∧
    (process_project_mrs (.ok [⟨1, "g/p"⟩, ⟨2, "g/p"⟩]) 10 mixedCollaborators
          "g/p" "general" false 3
          [⟨2, "g/p"⟩, ⟨1, "g/p"⟩]).successful_reviews +
        (process_project_mrs (.ok [⟨1, "g/p"⟩, ⟨2, "g/p"⟩]) 10
          mixedCollaborators "g/p" "general" false 3
          [⟨2, "g/p"⟩, ⟨1, "g/p"⟩]).failed_reviews =
      (process_project_mrs (.ok [⟨1, "g/p"⟩, ⟨2, "g/p"⟩]) 10 mixedCollaborators
          "g/p" "general" false 3 [⟨2, "g/p"⟩, ⟨1, "g/p"⟩]).total_mrs ∧
    (process_project_mrs (.ok [⟨1, "g/p"⟩, ⟨2, "g/p"⟩]) 10 mixedCollaborators
          "g/p" "general" false 3 [⟨2, "g/p"⟩, ⟨1, "g/p"⟩]).total_mrs =
      (get_mrs_to_process (.ok [⟨1, "g/p"⟩, ⟨2, "g/p"⟩]) 10).length :=
  C1_one_result_per_unit (.ok [⟨1, "g/p"⟩, ⟨2, "g/p"⟩]) 10 mixedCollaborators
    "g/p" "general" false 3 [⟨2, "g/p"⟩, ⟨1, "g/p"⟩]
    (List.Perm.swap (⟨1, "g/p"⟩ : MR) (⟨2, "g/p"⟩ : MR) [])

/-- C3 counterexample: when enumeration raises, `_get_mrs_to_process`
swallows the exception and returns `[]`, so `process_project_mrs` returns
the EMPTY summary: zero units and an EMPTY `errors` list — no top-level
error string is recorded, contradicting "the returned summary contains a
recorded error alongside zero units". -/
theorem C3_counterexample :
    (process_project_mrs (.error "GitLab API unavailable") 10
        trivialCollaborators "g/p" "general" false 3 []).total_mrs = 0 ∧
    (process_project_mrs (.error "GitLab API unavailable") 10
        trivialCollaborators "g/p" "general" false 3 []).errors = [] := by
  exact ⟨rfl, rfl⟩

/-- C3 amended: a failure of enumeration or filtering is caught inside
`_get_mrs_to_process`, which logs it and returns the empty list; the run
then completes without raising and returns the empty summary — zero units
and an EMPTY `errors` list (the error is not recorded in
`BatchSummary.errors`). -/
theorem C3_enumeration_failure_swallowed (err : String) (max_reviews : Nat)
    (C : Collaborators) (pp rt : String) (post : Bool) (workers : Nat)
    (order : List MR) :
    process_project_mrs (.error err) max_reviews C pp rt post workers order =
      create_empty_summary pp rt ∧
    (process_project_mrs (.error err) max_reviews C pp rt post workers
      order).errors = [] ∧
    (process_project_mrs (.error err) max_reviews C pp rt post workers
      order).total_mrs = 0 := by
  refine ⟨?_, ?_, ?_⟩ <;> rfl

/-- C9: over the same enumerated units and deterministic collaborators,
sequential dispatch (`worker_count ≤ 1`) and parallel dispatch
(`worker_count > 1`, any completion order) produce summaries with
identical `total_mrs`, `successful_reviews` and `failed_reviews`. -/
theorem C9_sequential_parallel_same_counts
    (enum_and_filter : Except String (List MR)) (max_reviews : Nat)
    (C : Collaborators) (pp rt : String) (post : Bool) (w1 w2 : Nat)
    (order : List MR) (hw1 : w1 ≤ 1) (hw2 : 1 < w2)
    (hperm : order.Perm (get_mrs_to_process enum_and_filter max_reviews)) :
    (process_project_mrs enum_and_filter max_reviews C pp rt post w1
        order).total_mrs =
      (process_project_mrs enum_and_filter max_reviews C pp rt post w2
        order).total_mrs ∧
    (process_project_mrs enum_and_filter max_reviews C pp rt post w1
        order).successful_reviews =
      (process_project_mrs enum_and_filter max_reviews C pp rt post w2
        order).successful_reviews ∧
    (process_project_mrs enum_and_filter max_reviews C pp rt post w1
        order).failed_reviews =
      (process_project_mrs enum_and_filter max_reviews C pp rt post w2
        order).failed_reviews := by
  have hnw1 : ¬(1 < w1) := by omega
  have hpr : (process_parallel C order rt post).Perm
      (process_sequential C (get_mrs_to_process enum_and_filter max_reviews)
        rt post) := by
    rw [process_parallel_eq_map, process_sequential]
    exact hperm.map _
  have hlen := hpr.length_eq
  have hfil := (hpr.filter (fun r => r.success)).length_eq
  by_cases hz : (get_mrs_to_process enum_and_filter max_reviews).length = 0
  · simp [process_project_mrs, hz]
  · simp only [process_project_mrs, if_neg hz, if_neg hnw1, if_pos hw2,
      mkSummary]
    omega

/-- Witness for `C9_sequential_parallel_same_counts`: two units, one of
which fails, sequential (`w=1`) versus parallel (`w=3`) with reversed
completion order. -/
theorem C9_sequential_parallel_same_counts_witness :
    (process_project_mrs (.ok [⟨1, "g/p"⟩, ⟨2, "g/p"⟩]) 10 mixedCollaborators
        "g/p" "general" false 1 [⟨2, "g/p"⟩, ⟨1, "g/p"⟩]).total_mrs =
      (process_project_mrs (.ok [⟨1, "g/p"⟩, ⟨2, "g/p"⟩]) 10
        mixedCollaborators "g/p" "general" false 3
        [⟨2, "g/p"⟩, ⟨1, "g/p"⟩]).total_mrs ∧
    (process_project_mrs (.ok [⟨1, "g/p"⟩, ⟨2, "g/p"⟩]) 10 mixedCollaborators
        "g/p" "general" false 1
        [⟨2, "g/p"⟩, ⟨1, "g/p"⟩]).successful_reviews =
      (process_project_mrs (.ok [⟨1, "g/p"⟩, ⟨2, "g/p"⟩]) 10
        mixedCollaborators "g/p" "general" false 3
        [⟨2, "g/p"⟩, ⟨1, "g/p"⟩]).successful_reviews ∧
    (process_project_mrs (.ok [⟨1, "g/p"⟩, ⟨2, "g/p"⟩]) 10 mixedCollaborators
        "g/p" "general" false 1 [⟨2, "g/p"⟩, ⟨1, "g/p"⟩]).failed_reviews =
      (process_project_mrs (.ok [⟨1, "g/p"⟩, ⟨2, "g/p"⟩]) 10
        mixedCollaborators "g/p" "general" false 3
        [⟨2, "g/p"⟩, ⟨1, "g/p"⟩]).failed_reviews :=
  C9_sequential_parallel_same_counts (.ok [⟨1, "g/p"⟩, ⟨2, "g/p"⟩]) 10
    mixedCollaborators "g/p" "general" false 1 3 [⟨2, "g/p"⟩, ⟨1, "g/p"⟩]
    (le_refl 1) (by omega) (List.Perm.swap (⟨1, "g/p"⟩ : MR) (⟨2, "g/p"⟩ : MR) [])

end RAG4Code
